import Mathlib

/-!
Shallow embedding of sssd's `src/providers/ipa/ipa_dyndns.c`: the debounced,
connection-gated periodic DNS update scheduler.  Pure functions model each C
function; the tevent callback machinery is modelled by explicit outcome
parameters (what the asynchronous collaborator eventually reports) and by a
trace of externally visible actions, in source order, so that ordering and
counting properties (timer re-arming, flag clearing, update invocations) can
be stated and proved.
-/

namespace IpaDyndns

/-- sssd debug levels (from sssd's util/util.h): a numerically smaller level
is more severe.  Only the levels used in ipa_dyndns.c appear here. -/
def SSSDBG_CRIT_FAILURE : Nat := 2

/-- Serious failure level (less severe than CRIT). -/
def SSSDBG_OP_FAILURE : Nat := 3

/-- Minor failure level: lower severity than OP_FAILURE. -/
def SSSDBG_MINOR_FAILURE : Nat := 4

/-- Function-data debug level. -/
def SSSDBG_FUNC_DATA : Nat := 6

/-- Function-trace debug level. -/
def SSSDBG_TRACE_FUNC : Nat := 7

/-- errno EOK. -/
def EOK : Nat := 0

/-- errno EIO, the code used by every early-exit in ipa_dyndns_update_send. -/
def EIO : Nat := 5

/-- C's tolower on the ASCII range, as applied byte-wise by the loop at
lines 228-230 of ipa_dyndns.c. -/
def c_tolower (c : Char) : Char :=
  if 'A' ≤ c ∧ c ≤ 'Z' then Char.ofNat (c.toNat + 32) else c

/-- The in-place lower-casing loop `for (i = 0; dns_zone[i] != 0; i++)
dns_zone[i] = tolower(dns_zone[i]);` applied to a whole string. -/
def str_tolower (s : String) : String := String.mk (s.data.map c_tolower)

/-- First `n` bytes of a C string, as inspected by `strncmp(s, t, n)`. -/
def str_take (s : String) (n : Nat) : String := String.mk (s.data.take n)

/-- Pointer arithmetic `s + n` on a C string: drop the first `n` bytes. -/
def str_drop (s : String) (n : Nat) : String := String.mk (s.data.drop n)

/-- The mutable state visible to ipa_dyndns.c: the fields of
`ctx->dyndns_ctx` (last_refresh, timer_in_progress), the option-store values
the file reads, and the active connection's URI.  `dp_opt_get_string` returns
the stored string buffer itself (`opts[id].val.string`), not a copy, so
`ipa_domain` is the very buffer the lower-casing loop writes through. -/
structure DyndnsState where
  /-- ctx->dyndns_ctx->last_refresh -/
  last_refresh : Nat
  /-- ctx->dyndns_ctx->timer_in_progress -/
  timer_in_progress : Bool
  /-- option store entry IPA_DOMAIN -/
  ipa_domain : Option String
  /-- option store entry IPA_HOSTNAME -/
  ipa_hostname : Option String
  /-- option store entry IPA_KRB5_REALM -/
  krb5_realm : Option String
  /-- option store entry DP_OPT_DYNDNS_IFACE -/
  dyndns_iface : Option String
  /-- option store entry DP_OPT_DYNDNS_TTL -/
  dyndns_ttl : Int
  /-- ctx->service->sdap->uri -/
  uri : String
deriving DecidableEq, Repr

/-- The argument tuple passed to the external update operation
`sdap_dyndns_update_send` (lines 244-256). -/
structure UpdateArgs where
  iface : Option String
  hostname : Option String
  dns_zone : String
  realm : Option String
  servername : String
  ttl : Int
  auth : Bool
deriving DecidableEq, Repr

/-- Externally visible micro-steps of the C code, recorded in source order. -/
inductive Action where
  /-- a write to ctx->dyndns_ctx->timer_in_progress -/
  | setFlag (b : Bool)
  /-- a call to be_nsupdate_timer_schedule, re-arming the periodic timer -/
  | schedule
  /-- sdap_id_op_connect_send issued a connection attempt -/
  | connectStart
  /-- the debounce gate at lines 209-210 was evaluated, with its verdict -/
  | debounceCheck (denied : Bool)
  /-- sdap_dyndns_update_send was invoked with these arguments -/
  | sendUpdate (a : UpdateArgs)
  /-- a DEBUG statement at the given severity level -/
  | log (level : Nat)
deriving DecidableEq, Repr

/-- Status of the tevent request returned by ipa_dyndns_update_send. -/
inductive ReqStatus where
  /-- tevent_req_create returned NULL: no request exists at all -/
  | null
  /-- completed successfully and posted immediately (tevent_req_done) -/
  | done
  /-- completed with this errno and posted immediately (tevent_req_error) -/
  | error (e : Nat)
  /-- sdap_dyndns_update_send is in flight with these arguments -/
  | pending (a : UpdateArgs)
deriving DecidableEq, Repr

/-- Eventual result of the external update operation, for pending requests. -/
inductive UpdateOutcome where
  | ok
  | fail (e : Nat)
deriving DecidableEq, Repr

/-- The single completion channel: the errno that
`ipa_dyndns_update_recv` (via TEVENT_REQ_RETURN_ON_ERROR) hands to
`ipa_dyndns_nsupdate_done`, for any request status.  It is `none` exactly
when the request was NULL, in which case no callback was ever registered.
A pending request completes through ipa_dyndns_sdap_update_done with the
external update's outcome. -/
def cycleCompletion : ReqStatus → UpdateOutcome → Option Nat
  | ReqStatus.null, _ => none
  | ReqStatus.done, _ => some EOK
  | ReqStatus.error e, _ => some e
  | ReqStatus.pending _, UpdateOutcome.ok => some EOK
  | ReqStatus.pending _, UpdateOutcome.fail e => some e

/-- The debounce gate condition of lines 209-210:
`ctx->dyndns_ctx->last_refresh + 60 > time(NULL) ||
 ctx->dyndns_ctx->timer_in_progress`. -/
def debounce_denied (s : DyndnsState) (now : Nat) : Bool :=
  decide (s.last_refresh + 60 > now) || s.timer_in_progress

/-- ipa_dyndns_update_send (lines 190-273).  `now` stands for `time(NULL)`
(read twice in the C, within the same event-loop step, hence equal);
`req_create_ok` and `subreq_ok` stand for the success of the two fallible
allocations (`tevent_req_create` and `sdap_dyndns_update_send` returning
non-NULL).  Returns the state after the call, the request status, and the
trace of visible actions.  The lower-casing loop writes through the pointer
obtained from `dp_opt_get_string(ctx->basic, IPA_DOMAIN)`, i.e. the stored
option value itself, which is why the returned state's `ipa_domain` changes.
The `if (!servername)` test at line 239 is vacuous in C (`uri + 7` is never
NULL) and has no branch here. -/
def ipa_dyndns_update_send (s : DyndnsState) (now : Nat)
    (req_create_ok subreq_ok : Bool) :
    DyndnsState × ReqStatus × List Action :=
  if req_create_ok = false then
    (s, ReqStatus.null, [Action.log SSSDBG_TRACE_FUNC])
  else if debounce_denied s now then
    (s, ReqStatus.done,
     [Action.log SSSDBG_TRACE_FUNC, Action.debounceCheck true,
      Action.log SSSDBG_FUNC_DATA])
  else
    let tr1 := [Action.log SSSDBG_TRACE_FUNC, Action.debounceCheck false]
    let s1 : DyndnsState := { s with last_refresh := now }
    match s.ipa_domain with
    | none => (s1, ReqStatus.error EIO, tr1)
    | some d =>
      let zone := str_tolower d
      let s2 : DyndnsState := { s1 with ipa_domain := some zone }
      -- the C tests strncmp(uri, "ldap://", 7) != 0 and fails first; the
      -- same two branches are stated here with the matching case first
      if str_take s2.uri 7 = ("ldap://") then
        let servername := str_drop s2.uri 7
        if subreq_ok = false then
          (s2, ReqStatus.error EIO, tr1 ++ [Action.log SSSDBG_OP_FAILURE])
        else
          let args : UpdateArgs :=
            { iface := s2.dyndns_iface, hostname := s2.ipa_hostname,
              dns_zone := zone, realm := s2.krb5_realm,
              servername := servername, ttl := s2.dyndns_ttl, auth := true }
          (s2, ReqStatus.pending args, tr1 ++ [Action.sendUpdate args])
      else
        (s2, ReqStatus.error EIO, tr1 ++ [Action.log SSSDBG_CRIT_FAILURE])

/-- ipa_dyndns_update (lines 155-169), the online-transition entry point,
also invoked at the end of a successful periodic connection: it first calls
be_nsupdate_timer_schedule (line 161), then builds the update request. -/
def ipa_dyndns_update (s : DyndnsState) (now : Nat)
    (req_create_ok subreq_ok : Bool) :
    DyndnsState × ReqStatus × List Action :=
  let r := ipa_dyndns_update_send s now req_create_ok subreq_ok
  (r.1, r.2.1, Action.schedule :: r.2.2)

/-- Did the connection attempt start, or did sdap_id_op_create /
sdap_id_op_connect_send fail synchronously (the `goto fail` path)? -/
inductive ConnectStart where
  | started
  | initFail
deriving DecidableEq, Repr

/-- ipa_dyndns_timer (lines 67-110), the periodic-timer entry point.  The
out-of-memory early return at line 76 happens before any state change and is
not modelled (allocation of the timer context is assumed to succeed). -/
def ipa_dyndns_timer (s : DyndnsState) (cs : ConnectStart) :
    DyndnsState × List Action :=
  match cs with
  | ConnectStart.started =>
      ({ s with timer_in_progress := true },
       [Action.setFlag true, Action.connectStart])
  | ConnectStart.initFail =>
      ({ s with timer_in_progress := false },
       [Action.setFlag true, Action.log SSSDBG_OP_FAILURE,
        Action.setFlag false, Action.schedule])

/-- Result reported by sdap_id_op_connect_recv (line 125). -/
inductive ConnectResult where
  /-- ret == EOK -/
  | ok
  /-- ret != EOK with dp_error == DP_ERR_OFFLINE -/
  | offline
  /-- ret != EOK, any other failure -/
  | err (e : Nat)
deriving DecidableEq, Repr

/-- ipa_dyndns_timer_connected (lines 112-148), the continuation of the
periodic timer's connection attempt.  The second component is the status of
the update request it creates (`none` on the paths that create none). -/
def ipa_dyndns_timer_connected (s : DyndnsState) (r : ConnectResult)
    (now : Nat) (req_create_ok subreq_ok : Bool) :
    DyndnsState × Option ReqStatus × List Action :=
  let s1 : DyndnsState := { s with timer_in_progress := false }
  match r with
  | ConnectResult.offline =>
      (s1, none, [Action.setFlag false, Action.log SSSDBG_MINOR_FAILURE])
  | ConnectResult.err _ =>
      (s1, none,
       [Action.setFlag false, Action.log SSSDBG_OP_FAILURE, Action.schedule])
  | ConnectResult.ok =>
      let u := ipa_dyndns_update s1 now req_create_ok subreq_ok
      (u.1, some u.2.1, Action.setFlag false :: Action.schedule :: u.2.2)

/-- How the environment resolves one periodic-timer cycle. -/
inductive PeriodicOutcome where
  /-- the connection attempt could not even start (goto fail) -/
  | initFail
  /-- connection completed offline -/
  | offline
  /-- connection failed with a non-offline error -/
  | connErr (e : Nat)
  /-- connection succeeded; the update path runs at time `now` -/
  | connected (now : Nat) (req_create_ok subreq_ok : Bool)
deriving DecidableEq, Repr

/-- One full periodic-timer cycle: ipa_dyndns_timer fires and, when a
connection attempt was started, ipa_dyndns_timer_connected runs with the
given result. -/
def periodicCycle (s : DyndnsState) (o : PeriodicOutcome) :
    DyndnsState × List Action :=
  match o with
  | PeriodicOutcome.initFail => ipa_dyndns_timer s ConnectStart.initFail
  | PeriodicOutcome.offline =>
      let t := ipa_dyndns_timer s ConnectStart.started
      let c := ipa_dyndns_timer_connected t.1 ConnectResult.offline 0 true true
      (c.1, t.2 ++ c.2.2)
  | PeriodicOutcome.connErr e =>
      let t := ipa_dyndns_timer s ConnectStart.started
      let c := ipa_dyndns_timer_connected t.1 (ConnectResult.err e) 0 true true
      (c.1, t.2 ++ c.2.2)
  | PeriodicOutcome.connected now rc so =>
      let t := ipa_dyndns_timer s ConnectStart.started
      let c := ipa_dyndns_timer_connected t.1 ConnectResult.ok now rc so
      (c.1, t.2 ++ c.2.2)

/-- Recognizer for timer re-arm actions. -/
def isSchedule : Action → Bool
  | Action.schedule => true
  | _ => false

/-- Number of be_nsupdate_timer_schedule calls in a trace. -/
def scheduleCount (tr : List Action) : Nat := (tr.filter isSchedule).length

/-- Recognizer for invocations of the external update operation. -/
def isSendUpdate : Action → Bool
  | Action.sendUpdate _ => true
  | _ => false

/-- Number of sdap_dyndns_update_send invocations in a trace. -/
def sendUpdateCount (tr : List Action) : Nat :=
  (tr.filter isSendUpdate).length

/-- Threading the current value `f` of timer_in_progress through a trace:
true iff every timer re-arm and every update invocation happens at a point
where the flag is false. -/
def flagClearedBeforeWork : Bool → List Action → Bool
  | _, [] => true
  | _, Action.setFlag b :: tr => flagClearedBeforeWork b tr
  | f, Action.schedule :: tr => !f && flagClearedBeforeWork f tr
  | f, Action.sendUpdate _ :: tr => !f && flagClearedBeforeWork f tr
  | f, _ :: tr => flagClearedBeforeWork f tr

/-- A burst of online-transition triggers (ipa_dyndns_update invocations),
each with its own time and allocation outcomes, run back to back while
nothing else runs; the state threads through. -/
def onlineBurst : DyndnsState → List (Nat × Bool × Bool) →
    DyndnsState × List Action
  | s, [] => (s, [])
  | s, (now, rc, so) :: rest =>
      let u := ipa_dyndns_update s now rc so
      let r := onlineBurst u.1 rest
      (r.1, u.2.2 ++ r.2)

/-- A sample state: upper-case configured domain, valid LDAP URI, idle. -/
def upperDomainState : DyndnsState :=
  { last_refresh := 0, timer_in_progress := false,
    ipa_domain := some ("EXAMPLE.TEST"),
    ipa_hostname := some ("client.example.test"),
    krb5_realm := some ("EXAMPLE.TEST"), dyndns_iface := none,
    dyndns_ttl := 1200, uri := "ldap://server.example.test" }

/-- A sample state whose connection URI is not an LDAP URI. -/
def httpsUriState : DyndnsState :=
  { upperDomainState with uri := "https://host:1234" }

/-- A sample state with a periodic connection attempt outstanding. -/
def busyState : DyndnsState :=
  { upperDomainState with timer_in_progress := true }

/-- A sample state with no configured domain. -/
def noDomainState : DyndnsState :=
  { upperDomainState with ipa_domain := none }

theorem updateSend_schedule_count (s : DyndnsState) (now : Nat)
    (rc so : Bool) :
    scheduleCount (ipa_dyndns_update_send s now rc so).2.2 = 0 := by
  unfold ipa_dyndns_update_send
  dsimp only
  split
  · rfl
  · split
    · rfl
    · split
      · rfl
      · split
        · split
          · rfl
          · rfl
        · rfl

theorem updateSend_no_connectStart (s : DyndnsState) (now : Nat)
    (rc so : Bool) :
    Action.connectStart ∉ (ipa_dyndns_update_send s now rc so).2.2 := by
  unfold ipa_dyndns_update_send
  dsimp only
  split
  · simp
  · split
    · simp
    · split
      · simp
      · split
        · split
          · simp
          · simp
        · simp

theorem updateSend_flag_cleared (s : DyndnsState) (now : Nat)
    (rc so : Bool) :
    flagClearedBeforeWork false (ipa_dyndns_update_send s now rc so).2.2 =
      true := by
  unfold ipa_dyndns_update_send
  dsimp only
  split
  · rfl
  · split
    · rfl
    · split
      · rfl
      · split
        · split
          · rfl
          · rfl
        · rfl

theorem updateSend_flag_preserved (s : DyndnsState) (now : Nat)
    (rc so : Bool) :
    (ipa_dyndns_update_send s now rc so).1.timer_in_progress =
      s.timer_in_progress := by
  unfold ipa_dyndns_update_send
  dsimp only
  split
  · rfl
  · split
    · rfl
    · split
      · rfl
      · split
        · split
          · rfl
          · rfl
        · rfl

theorem updateSend_denied (s : DyndnsState) (now : Nat) (so : Bool)
    (h : debounce_denied s now = true) :
    ipa_dyndns_update_send s now true so =
      (s, ReqStatus.done,
       [Action.log SSSDBG_TRACE_FUNC, Action.debounceCheck true,
        Action.log SSSDBG_FUNC_DATA]) := by
  unfold ipa_dyndns_update_send
  simp [h]

theorem update_state_flag_true (s : DyndnsState)
    (h : s.timer_in_progress = true) (now : Nat) (rc so : Bool) :
    (ipa_dyndns_update s now rc so).1 = s ∧
    sendUpdateCount (ipa_dyndns_update s now rc so).2.2 = 0 ∧
    Action.connectStart ∉ (ipa_dyndns_update s now rc so).2.2 := by
  have hd : debounce_denied s now = true := by
    unfold debounce_denied
    rw [h]
    simp
  unfold ipa_dyndns_update
  rcases rc with _ | _
  · simp [ipa_dyndns_update_send, sendUpdateCount, isSendUpdate]
  · rw [updateSend_denied s now so hd]
    simp [sendUpdateCount, isSendUpdate, List.filter]

/-- C1 counterexample: a periodic cycle whose connection step completes
offline re-arms the periodic timer zero times, not exactly once — the code
returns from ipa_dyndns_timer_connected without calling
be_nsupdate_timer_schedule on that path (lines 129-133). -/
theorem offline_cycle_rearm_zero :
    scheduleCount
        (periodicCycle upperDomainState PeriodicOutcome.offline).2 ≠ 1 ∧
    scheduleCount
        (periodicCycle upperDomainState PeriodicOutcome.offline).2 = 0 := by
  exact ⟨by decide, by decide⟩

/-- C1 (corrected): per triggered cycle, the number of
be_nsupdate_timer_schedule calls is: exactly one for every online-transition
cycle; for a periodic cycle, exactly one when the connection attempt fails
to start or fails with a non-offline error, zero when the connection
completes offline (re-arming is deferred to the next online transition), and
two when the connection succeeds (once in the connection continuation at
line 146 and once again at the entry of ipa_dyndns_update at line 161). -/
theorem timer_rearm_call_counts :
    (∀ (s : DyndnsState) (o : PeriodicOutcome),
       scheduleCount (periodicCycle s o).2 =
         match o with
         | PeriodicOutcome.offline => 0
         | PeriodicOutcome.connected _ _ _ => 2
         | _ => 1) ∧
    (∀ (s : DyndnsState) (now : Nat) (rc so : Bool),
       scheduleCount (ipa_dyndns_update s now rc so).2.2 = 1) := by
  constructor
  · intro s o
    rcases o with _ | _ | e | ⟨now, rc, so⟩
    · rfl
    · rfl
    · rfl
    · have h := updateSend_schedule_count
        { s with timer_in_progress := false } now rc so
      simp only [periodicCycle, ipa_dyndns_timer, ipa_dyndns_timer_connected,
        ipa_dyndns_update, scheduleCount, isSchedule, List.filter_append,
        List.filter, List.length_append, List.length_cons] at h ⊢
      omega
  · intro s now rc so
    have h := updateSend_schedule_count s now rc so
    simp only [ipa_dyndns_update, scheduleCount, isSchedule,
      List.filter, List.length_cons] at h ⊢
    omega

/-- C2 (code bug): with configured domain EXAMPLE.TEST the zone passed to
the update operation is indeed the lower-cased example.test, but the
lower-casing loop writes in place through the buffer handed out by the
option store, so the stored configuration value itself becomes example.test
instead of staying EXAMPLE.TEST. -/
theorem ipa_domain_mutated_in_place :
    (ipa_dyndns_update_send upperDomainState 100 true true).2.1 =
      ReqStatus.pending
        { iface := none, hostname := some ("client.example.test"),
          dns_zone := "example.test", realm := some ("EXAMPLE.TEST"),
          servername := "server.example.test", ttl := 1200, auth := true } ∧
    (ipa_dyndns_update_send upperDomainState 100 true true).1.ipa_domain =
      some ("example.test") ∧
    upperDomainState.ipa_domain = some ("EXAMPLE.TEST") ∧
    (ipa_dyndns_update_send upperDomainState 100 true true).1.ipa_domain ≠
      upperDomainState.ipa_domain := by
  exact ⟨by decide, by decide, by decide, by decide⟩

/-- C3 (confirmed): an offline connection result ends the periodic cycle
with no update invocation, an unchanged last_refresh, no request or error
object, and a single log entry at MINOR_FAILURE — a lower severity than the
OP_FAILURE level used for hard connect failures. -/
theorem offline_connect_soft_skip :
    ∀ (s : DyndnsState) (now : Nat) (rc so : Bool),
    ipa_dyndns_timer_connected s ConnectResult.offline now rc so =
      ({ s with timer_in_progress := false }, none,
       [Action.setFlag false, Action.log SSSDBG_MINOR_FAILURE]) ∧
    (ipa_dyndns_timer_connected s
        ConnectResult.offline now rc so).1.last_refresh = s.last_refresh ∧
    sendUpdateCount
      (ipa_dyndns_timer_connected s ConnectResult.offline now rc so).2.2
        = 0 ∧
    SSSDBG_OP_FAILURE < SSSDBG_MINOR_FAILURE := by
  intro s now rc so
  exact ⟨rfl, rfl, rfl, by decide⟩

/-- C9 (confirmed): every completion path of the timer-triggered connection
step clears timer_in_progress before any re-arm or update invocation (the
first action of ipa_dyndns_timer_connected is the flag write, and the
synchronous failure path of ipa_dyndns_timer clears the flag before its
re-arm), and the continuation leaves the flag false. -/
theorem flag_cleared_before_further_action :
    (∀ (s : DyndnsState) (r : ConnectResult) (now : Nat) (rc so : Bool),
       flagClearedBeforeWork true
         (ipa_dyndns_timer_connected s r now rc so).2.2 = true ∧
       (ipa_dyndns_timer_connected s r now rc so).1.timer_in_progress =
         false) ∧
    (∀ (s : DyndnsState) (cs : ConnectStart),
       flagClearedBeforeWork s.timer_in_progress
         (ipa_dyndns_timer s cs).2 = true) := by
  constructor
  · intro s r now rc so
    rcases r with _ | _ | e
    · constructor
      · show flagClearedBeforeWork true
          (Action.setFlag false :: Action.schedule ::
            (ipa_dyndns_update { s with timer_in_progress := false }
              now rc so).2.2) = true
        simp only [ipa_dyndns_update, flagClearedBeforeWork, Bool.not_false,
          Bool.true_and]
        exact updateSend_flag_cleared
          { s with timer_in_progress := false } now rc so
      · show (ipa_dyndns_update_send { s with timer_in_progress := false }
            now rc so).1.timer_in_progress = false
        rw [updateSend_flag_preserved]
    · exact ⟨rfl, rfl⟩
    · exact ⟨rfl, rfl⟩
  · intro s cs
    rcases cs with _ | _
    · rfl
    · rfl

/-- C10 (confirmed): every invocation of ipa_dyndns_update issues the timer
re-arm call exactly once, as its very first action, before the debounce
check inside ipa_dyndns_update_send runs — so also when the gate then denies
or when the request cannot be created. -/
theorem online_entry_schedules_once_first :
    ∀ (s : DyndnsState) (now : Nat) (rc so : Bool),
    (ipa_dyndns_update s now rc so).2.2 =
      Action.schedule :: (ipa_dyndns_update_send s now rc so).2.2 ∧
    scheduleCount (ipa_dyndns_update s now rc so).2.2 = 1 ∧
    List.head? (ipa_dyndns_update s now rc so).2.2 =
      some Action.schedule := by
  intro s now rc so
  refine ⟨rfl, ?_, rfl⟩
  have h := updateSend_schedule_count s now rc so
  simp only [ipa_dyndns_update, scheduleCount, isSchedule,
    List.filter, List.length_cons] at h ⊢
  omega

/-- C4 (confirmed): while a periodic connection attempt is outstanding
(timer_in_progress = true), any number of overlapping online-transition
triggers invoke zero update operations and start no second connection
attempt, and the state — the flag included — is unchanged: at most one
attempt holds the flag and at most one update operation can be invoked
before the outstanding attempt completes. -/
theorem no_update_while_timer_in_progress :
    ∀ (l : List (Nat × Bool × Bool)) (s : DyndnsState),
    s.timer_in_progress = true →
    sendUpdateCount (onlineBurst s l).2 = 0 ∧
    Action.connectStart ∉ (onlineBurst s l).2 ∧
    (onlineBurst s l).1 = s := by
  intro l
  induction l with
  | nil =>
    intro s h
    exact ⟨rfl, by simp [onlineBurst], rfl⟩
  | cons p rest ih =>
    intro s h
    obtain ⟨now, rc, so⟩ := p
    have hu := update_state_flag_true s h now rc so
    have hr := ih s h
    simp only [onlineBurst]
    rw [hu.1]
    refine ⟨?_, ?_, hr.2.2⟩
    · have h1 := hu.2.1
      have h2 := hr.1
      simp only [sendUpdateCount, List.filter_append,
        List.length_append] at h1 h2 ⊢
      omega
    · simp only [List.mem_append, not_or]
      exact ⟨hu.2.2, hr.2.1⟩

/-- witness for C4 at a concrete busy state and two online triggers. -/
theorem no_update_while_timer_in_progress_witness :
    sendUpdateCount
        (onlineBurst busyState [(100, true, true), (200, true, true)]).2
      = 0 ∧
    Action.connectStart ∉
      (onlineBurst busyState [(100, true, true), (200, true, true)]).2 ∧
    (onlineBurst busyState [(100, true, true), (200, true, true)]).1 =
      busyState :=
  no_update_while_timer_in_progress [(100, true, true), (200, true, true)]
    busyState rfl

/-- C5 (confirmed): with last_refresh = T, the flag clear and a valid
configuration, a trigger at T + 30 is denied by the 60-second cooldown and
completes as a no-op success — no update invocation, state unchanged —
while a trigger at T + 61 invokes the update operation exactly once and
advances last_refresh to T + 61. -/
theorem cooldown_debounce_behavior :
    ∀ (s : DyndnsState) (d : String) (T : Nat),
    s.last_refresh = T → s.timer_in_progress = false →
    s.ipa_domain = some d → str_take s.uri 7 = ("ldap://") →
    ((ipa_dyndns_update_send s (T + 30) true true).2.1 = ReqStatus.done ∧
     sendUpdateCount (ipa_dyndns_update_send s (T + 30) true true).2.2 = 0 ∧
     (ipa_dyndns_update_send s (T + 30) true true).1 = s) ∧
    (sendUpdateCount (ipa_dyndns_update_send s (T + 61) true true).2.2 = 1 ∧
     (ipa_dyndns_update_send s (T + 61) true true).1.last_refresh =
       T + 61) := by
  intro s d T hT hF hD hU
  have hden : debounce_denied s (T + 30) = true := by
    unfold debounce_denied
    rw [hT]
    simp only [Bool.or_eq_true, decide_eq_true_eq]
    left
    omega
  have hallow : debounce_denied s (T + 61) = false := by
    unfold debounce_denied
    rw [hT, hF]
    simp only [Bool.or_false, decide_eq_false_iff_not]
    omega
  constructor
  · rw [updateSend_denied s (T + 30) true hden]
    exact ⟨rfl, rfl, rfl⟩
  · unfold ipa_dyndns_update_send
    simp [hallow, hD, hU, sendUpdateCount, isSendUpdate, List.filter]

/-- witness for C5 at a concrete idle state with cooldown anchor T = 0. -/
theorem cooldown_debounce_behavior_witness :
    ((ipa_dyndns_update_send upperDomainState (0 + 30) true true).2.1 =
        ReqStatus.done ∧
     sendUpdateCount
        (ipa_dyndns_update_send upperDomainState (0 + 30) true true).2.2
       = 0 ∧
     (ipa_dyndns_update_send upperDomainState (0 + 30) true true).1 =
       upperDomainState) ∧
    (sendUpdateCount
        (ipa_dyndns_update_send upperDomainState (0 + 61) true true).2.2
       = 1 ∧
     (ipa_dyndns_update_send upperDomainState (0 + 61) true true).1.last_refresh
       = 0 + 61) :=
  cooldown_debounce_behavior upperDomainState ("EXAMPLE.TEST") 0
    rfl rfl rfl (by decide)

/-- C6 (confirmed): when the debounce gate denies — the flag is set or fewer
than 60 seconds have passed since last_refresh — the cycle completes as an
immediately posted success (tevent_req_done), the state and last_refresh are
unchanged, no update operation is invoked, and the completion delivered to
the done-callback is EOK, identical to the success path. -/
theorem debounce_denial_noop_success :
    ∀ (s : DyndnsState) (now : Nat) (so : Bool) (u : UpdateOutcome),
    s.last_refresh + 60 > now ∨ s.timer_in_progress = true →
    ipa_dyndns_update_send s now true so =
      (s, ReqStatus.done,
       [Action.log SSSDBG_TRACE_FUNC, Action.debounceCheck true,
        Action.log SSSDBG_FUNC_DATA]) ∧
    sendUpdateCount (ipa_dyndns_update_send s now true so).2.2 = 0 ∧
    (ipa_dyndns_update_send s now true so).1.last_refresh =
      s.last_refresh ∧
    cycleCompletion (ipa_dyndns_update_send s now true so).2.1 u =
      some EOK := by
  intro s now so u h
  have hden : debounce_denied s now = true := by
    unfold debounce_denied
    rcases h with h | h
    · simp [h]
    · simp [h]
  rw [updateSend_denied s now so hden]
  exact ⟨rfl, rfl, rfl, rfl⟩

/-- witness for C6 at a concrete state with the timer flag set. -/
theorem debounce_denial_noop_success_witness :
    ipa_dyndns_update_send busyState 0 true true =
      (busyState, ReqStatus.done,
       [Action.log SSSDBG_TRACE_FUNC, Action.debounceCheck true,
        Action.log SSSDBG_FUNC_DATA]) ∧
    sendUpdateCount (ipa_dyndns_update_send busyState 0 true true).2.2 = 0 ∧
    (ipa_dyndns_update_send busyState 0 true true).1.last_refresh =
      busyState.last_refresh ∧
    cycleCompletion (ipa_dyndns_update_send busyState 0 true true).2.1
      UpdateOutcome.ok = some EOK :=
  debounce_denial_noop_success busyState 0 true UpdateOutcome.ok
    (Or.inr rfl)

/-- C7 (confirmed): past the gate and with a configured domain, a connection
URI that does not begin with ldap:// fails the cycle with EIO and no update
invocation; one that does yields an update request whose server address is
the URI with the 7-byte scheme stripped. -/
theorem ldap_uri_scheme_gate :
    ∀ (s : DyndnsState) (now : Nat) (d : String),
    s.timer_in_progress = false → s.last_refresh + 60 ≤ now →
    s.ipa_domain = some d →
    (str_take s.uri 7 ≠ ("ldap://") →
       (ipa_dyndns_update_send s now true true).2.1 = ReqStatus.error EIO ∧
       sendUpdateCount (ipa_dyndns_update_send s now true true).2.2 = 0) ∧
    (str_take s.uri 7 = ("ldap://") →
       (ipa_dyndns_update_send s now true true).2.1 =
         ReqStatus.pending
           { iface := s.dyndns_iface, hostname := s.ipa_hostname,
             dns_zone := str_tolower d, realm := s.krb5_realm,
             servername := str_drop s.uri 7, ttl := s.dyndns_ttl,
             auth := true }) := by
  intro s now d hF hcool hD
  have hallow : debounce_denied s now = false := by
    unfold debounce_denied
    rw [hF]
    simp only [Bool.or_false, decide_eq_false_iff_not]
    omega
  constructor
  · intro hbad
    unfold ipa_dyndns_update_send
    simp [hallow, hD, hbad, sendUpdateCount, isSendUpdate, List.filter]
  · intro hok
    unfold ipa_dyndns_update_send
    simp [hallow, hD, hok]

/-- witness for C7: an https URI is rejected with EIO; an ldap URI has its
scheme stripped into the server argument. -/
theorem ldap_uri_scheme_gate_witness :
    ((ipa_dyndns_update_send httpsUriState 100 true true).2.1 =
        ReqStatus.error EIO ∧
     sendUpdateCount
        (ipa_dyndns_update_send httpsUriState 100 true true).2.2 = 0) ∧
    (ipa_dyndns_update_send upperDomainState 100 true true).2.1 =
      ReqStatus.pending
        { iface := upperDomainState.dyndns_iface,
          hostname := upperDomainState.ipa_hostname,
          dns_zone := str_tolower ("EXAMPLE.TEST"),
          realm := upperDomainState.krb5_realm,
          servername := str_drop upperDomainState.uri 7,
          ttl := upperDomainState.dyndns_ttl, auth := true } :=
  ⟨(ldap_uri_scheme_gate httpsUriState 100 ("EXAMPLE.TEST")
      rfl (by decide) rfl).1 (by decide),
   (ldap_uri_scheme_gate upperDomainState 100 ("EXAMPLE.TEST")
      rfl (by decide) rfl).2 (by decide)⟩

/-- C8 (confirmed): past the gate, an absent configured domain fails the
cycle with EIO and no update invocation, and that failure is delivered as an
immediately posted completion through the same channel as every other
outcome: every non-NULL request yields a completion for the done-callback. -/
theorem missing_domain_uniform_completion :
    ∀ (s : DyndnsState) (now : Nat) (so : Bool) (u : UpdateOutcome),
    s.timer_in_progress = false → s.last_refresh + 60 ≤ now →
    s.ipa_domain = none →
    (ipa_dyndns_update_send s now true so).2.1 = ReqStatus.error EIO ∧
    sendUpdateCount (ipa_dyndns_update_send s now true so).2.2 = 0 ∧
    cycleCompletion ((ipa_dyndns_update_send s now true so).2.1) u =
      some EIO ∧
    (∀ (st : ReqStatus) (v : UpdateOutcome),
       st ≠ ReqStatus.null →
       Option.isSome (cycleCompletion st v) = true) := by
  intro s now so u hF hcool hD
  have hallow : debounce_denied s now = false := by
    unfold debounce_denied
    rw [hF]
    simp only [Bool.or_false, decide_eq_false_iff_not]
    omega
  have hmain : (ipa_dyndns_update_send s now true so).2.1 =
      ReqStatus.error EIO ∧
      sendUpdateCount (ipa_dyndns_update_send s now true so).2.2 = 0 := by
    unfold ipa_dyndns_update_send
    simp [hallow, hD, sendUpdateCount, isSendUpdate, List.filter]
  refine ⟨hmain.1, hmain.2, ?_, ?_⟩
  · rw [hmain.1]
    cases u
    · rfl
    · rfl
  · intro st v hst
    cases st
    · exact absurd rfl hst
    · rfl
    · rfl
    · cases v
      · rfl
      · rfl

/-- witness for C8 at a concrete state with no configured domain. -/
theorem missing_domain_uniform_completion_witness :
    (ipa_dyndns_update_send noDomainState 100 true true).2.1 =
      ReqStatus.error EIO ∧
    sendUpdateCount
      (ipa_dyndns_update_send noDomainState 100 true true).2.2 = 0 ∧
    cycleCompletion ((ipa_dyndns_update_send noDomainState 100 true true).2.1)
      UpdateOutcome.ok = some EIO ∧
    (∀ (st : ReqStatus) (v : UpdateOutcome),
       st ≠ ReqStatus.null →
       Option.isSome (cycleCompletion st v) = true) :=
  missing_domain_uniform_completion noDomainState 100 true UpdateOutcome.ok
    rfl (by decide) rfl

end IpaDyndns
